import Mathlib

/-!
# Flight Tail Optimizer — verification of the core engine

Shallow embedding of the decision core of the `flight-tail-optimizer`
repository (`services/optimizerEngine.ts`, the `RiskBadge` component and
`DelayRiskPage.calculateRiskLevel`), together with proofs of the spec's
claims about it.

Modelling conventions:
* JavaScript `number` arithmetic is embedded as exact rational arithmetic
  (`ℚ`).  All constants appearing in the source (`0.1`, `0.015`, `0.99`, …)
  are decimal-exact here.
* `HH:MM` clock strings are kept as `String`s; `parseTime` embeds the
  source's `timeStr.split(':').map(Number)` followed by `hh * 60 + mm`,
  specialised to strings containing one `':'` (the only inputs on which the
  source's behaviour is defined).
* The wall-clock read `new Date().getTime()` inside `calculateMaintenanceRisk`
  is made an explicit parameter `now` (epoch milliseconds), and the ISO date
  field `lastMaintenance` is embedded as its epoch-millisecond value
  `new Date(ac.lastMaintenance).getTime()`.
-/

namespace FlightTailOptimizer

/-- Decimal value of a digit list, embedding JavaScript `Number` on a
well-formed digit string (`Number("08") = 8`). -/
def natOfDigits (cs : List Char) : Nat :=
  cs.foldl (fun n c => n * 10 + (c.toNat - 48)) 0

/-- Split a character list at the first `':'`, embedding
`timeStr.split(':')` for strings with exactly one colon. -/
def splitColon : List Char → List Char × List Char
  | [] => ([], [])
  | c :: rest =>
      if c = ':' then ([], rest)
      else
        let p := splitColon rest
        (c :: p.1, p.2)

/-- `parseTime` from `optimizerEngine.ts`:
`const [hh, mm] = timeStr.split(':').map(Number); return hh * 60 + mm;`. -/
def parseTime (timeStr : String) : Nat :=
  let p := splitColon timeStr.data
  natOfDigits p.1 * 60 + natOfDigits p.2

/-- A well-formed `HH:MM` clock string: digits on both sides of one colon,
hours below 24, minutes below 60 (the domain on which the source's
`parseTime` is defined). -/
def wellFormedTime (s : String) : Bool :=
  let p := splitColon s.data
  (s.data.contains ':') && (!p.1.isEmpty) && (!p.2.isEmpty) &&
    p.1.all Char.isDigit && p.2.all Char.isDigit &&
    natOfDigits p.1 < 24 && natOfDigits p.2 < 60 && (!p.2.contains ':')

/-- `MCT_MINUTES` constant. -/
def MCT_MINUTES : Nat := 45

/-- Status union `'ON_TIME' | 'DELAYED' | 'CANCELLED'` (informational only). -/
inductive LegStatus
  | ON_TIME
  | DELAYED
  | CANCELLED
  deriving DecidableEq, Repr

/-- Severity union `'WARNING' | 'ERROR'`. -/
inductive Severity
  | WARNING
  | ERROR
  deriving DecidableEq, Repr

/-- Weather union `'CLEAR' | 'RAIN' | 'SNOW' | 'STORM' | 'FOG'`. -/
inductive Weather
  | CLEAR
  | RAIN
  | SNOW
  | STORM
  | FOG
  deriving DecidableEq, Repr

/-- `FlightLeg` interface from `types.ts`. -/
structure FlightLeg where
  id : String
  flightNumber : String
  origin : String
  destination : String
  schedDep : String
  schedArr : String
  status : LegStatus
  deriving DecidableEq, Repr

/-- `RotationConflict` interface from `types.ts`. -/
structure RotationConflict where
  legId : String
  reason : String
  severity : Severity
  deriving DecidableEq, Repr

/-- Return type of `validateRotation`:
`{ isValid: boolean; conflicts: RotationConflict[] }`. -/
structure ValidationResult where
  isValid : Bool
  conflicts : List RotationConflict
  deriving DecidableEq, Repr

/-- `Aircraft` interface from `types.ts`; `lastMaintenance` is the epoch
millisecond value of the ISO date string. -/
structure Aircraft where
  tailNumber : String
  type : String
  ageYears : ℚ
  cycles : ℚ
  lastMaintenance : ℚ
  snagCount : ℚ
  deriving DecidableEq, Repr

/-- `DelayInput` interface from `types.ts`. -/
structure DelayInput where
  schedDepTime : String
  prevDelayMinutes : ℚ
  aircraftType : String
  weatherCondition : Weather
  deriving DecidableEq, Repr

/-- The sorted copy built by `validateRotation`:
`[...legs].sort((a, b) => parseTime(a.schedDep) - parseTime(b.schedDep))`
(JavaScript `Array.prototype.sort` is a stable ascending sort under this
comparator, embedded as a stable merge sort on the copied list). -/
def sortLegs (legs : List FlightLeg) : List FlightLeg :=
  legs.mergeSort (fun a b => parseTime a.schedDep ≤ parseTime b.schedDep)

/-- Reason string of the continuity conflict. -/
def mismatchReason (current next : FlightLeg) : String :=
  "Location mismatch: Arr " ++ current.destination ++ " != Dep " ++ next.origin

/-- Reason string of the overlap conflict. -/
def overlapReason (current next : FlightLeg) : String :=
  "Schedule Overlap: Arrives " ++ current.schedArr ++ ", Departs " ++ next.schedDep

/-- Reason string of the MCT conflict. -/
def mctReason (gap : Nat) : String :=
  "MCT Violation: Only " ++ toString gap ++ " min available (Req: " ++
    toString MCT_MINUTES ++ ")"

/-- Body of the `for` loop of `validateRotation`, over the sorted list:
each adjacent pair `(current, next)` pushes the continuity `ERROR`, then
either the overlap `ERROR` followed by `continue` (skipping the MCT check)
or, when there is no overlap, the MCT `WARNING` when the gap is short. -/
def checkPairs : List FlightLeg → List RotationConflict
  | current :: next :: rest =>
      let arrTime := parseTime current.schedArr
      let nextDepTime := parseTime next.schedDep
      (if current.destination ≠ next.origin then
        [{ legId := next.id, reason := mismatchReason current next,
           severity := Severity.ERROR }]
      else []) ++
      (if arrTime > nextDepTime then
        [{ legId := next.id, reason := overlapReason current next,
           severity := Severity.ERROR }]
      else if nextDepTime - arrTime < MCT_MINUTES then
        [{ legId := next.id, reason := mctReason (nextDepTime - arrTime),
           severity := Severity.WARNING }]
      else []) ++
      checkPairs (next :: rest)
  | _ => []

/-- `validateRotation` from `optimizerEngine.ts`. -/
def validateRotation (legs : List FlightLeg) : ValidationResult :=
  let sortedLegs := sortLegs legs
  let conflicts := checkPairs sortedLegs
  { isValid := conflicts.length == 0, conflicts := conflicts }

/-- `calculateDelayRisk` from `optimizerEngine.ts`, in the source's
sequential `score` accumulation order. -/
def calculateDelayRisk (input : DelayInput) : ℚ :=
  let score : ℚ := 0.1
  let minutes := parseTime input.schedDepTime
  let score := if minutes > 1000 then score + 0.2
               else if minutes > 720 then score + 0.1
               else score
  let score := if input.prevDelayMinutes > 60 then score + 0.4
               else if input.prevDelayMinutes > 15 then score + 0.2
               else score
  let score := match input.weatherCondition with
               | Weather.STORM => score + 0.5
               | Weather.SNOW => score + 0.4
               | Weather.FOG => score + 0.3
               | Weather.RAIN => score + 0.1
               | Weather.CLEAR => score
  let score := if input.aircraftType = "B737-MAX" ∨ input.aircraftType = "A321neo" then
                 score - 0.05
               else score
  min (max score 0) 0.99

/-- `calculateMaintenanceRisk` from `optimizerEngine.ts`; `now` is the
epoch-millisecond value of `new Date().getTime()`. -/
def calculateMaintenanceRisk (now : ℚ) (ac : Aircraft) : ℚ :=
  let risk : ℚ := 0.05
  let risk := risk + ac.ageYears * 0.015
  let risk := risk + (ac.cycles / 10000) * 0.1
  let risk := risk + ac.snagCount * 0.08
  let daysSinceMaint := (now - ac.lastMaintenance) / (1000 * 3600 * 24)
  let risk := if daysSinceMaint > 30 then risk + 0.15 else risk
  min (max risk 0) 1

/-- Return type of `optimizeTailSwap` (`SwapScenario` in `types.ts`). -/
structure SwapOutcome where
  aircraftA : Aircraft
  aircraftB : Aircraft
  riskScoreA : ℚ
  riskScoreB : ℚ
  improvement : ℚ
  feasible : Bool
  recommendation : String
  deriving DecidableEq, Repr

/-- `optimizeTailSwap` from `optimizerEngine.ts`. -/
def optimizeTailSwap (now : ℚ) (ac1 : Aircraft) (legs1 : List FlightLeg)
    (ac2 : Aircraft) (legs2 : List FlightLeg) : SwapOutcome :=
  let baseRisk1 := calculateMaintenanceRisk now ac1
  let baseRisk2 := calculateMaintenanceRisk now ac2
  let totalBaseRisk := baseRisk1 + baseRisk2
  let feasibility1 := validateRotation legs2
  let feasibility2 := validateRotation legs1
  let feasible := feasibility1.isValid && feasibility2.isValid
  let legs1Load := legs1.length
  let legs2Load := legs2.length
  let newRisks :=
    if baseRisk1 > baseRisk2 ∧ legs1Load > legs2Load then
      (baseRisk1 * 0.8, baseRisk2 * 1.1)
    else if baseRisk2 > baseRisk1 ∧ legs2Load > legs1Load then
      (baseRisk1 * 1.1, baseRisk2 * 0.8)
    else
      (baseRisk1, baseRisk2)
  let totalNewRisk := newRisks.1 + newRisks.2
  let improvement := (totalBaseRisk - totalNewRisk) * 100
  let recommendation :=
    if feasible = false then "Swap not feasible due to rotation conflicts."
    else if improvement > 5 then
      "STRONG RECOMMENDATION: Swap tails to mitigate maintenance risk on tight rotation."
    else if improvement > 0 then "Marginal benefit. Swap at discretion."
    else "Keep current assignment."
  { aircraftA := ac1, aircraftB := ac2,
    riskScoreA := newRisks.1, riskScoreB := newRisks.2,
    improvement := improvement, feasible := feasible,
    recommendation := recommendation }

/-- Three-way risk level; models the string union `'low' | 'medium' | 'high'`
of `DelayRiskPage` and, identified up to case, the `'LOW' | 'MEDIUM' | 'HIGH'`
labels of the `RiskBadge` component. -/
inductive RiskLevel
  | low
  | medium
  | high
  deriving DecidableEq, Repr

/-- Risk classification of the `RiskBadge` component
(`score > 0.6 → HIGH`, `else score >= 0.25 → MEDIUM`, `else LOW`). -/
def riskBadgeLevel (score : ℚ) : RiskLevel :=
  if score > 0.6 then RiskLevel.high
  else if score ≥ 0.25 then RiskLevel.medium
  else RiskLevel.low

/-- `calculateRiskLevel` from `DelayRiskPage.tsx`
(`score < 0.25 → low`, `score <= 0.6 → medium`, `else high`). -/
def calculateRiskLevel (score : ℚ) : RiskLevel :=
  if score < 0.25 then RiskLevel.low
  else if score ≤ 0.6 then RiskLevel.medium
  else RiskLevel.high

/-- Modelled from the spec: the canonical classification rule
"LOW if score < 0.25, MEDIUM if 0.25 ≤ score ≤ 0.6, HIGH if score > 0.6". -/
def canonicalRiskLevel (score : ℚ) : RiskLevel :=
  if score < 0.25 then RiskLevel.low
  else if 0.25 ≤ score ∧ score ≤ 0.6 then RiskLevel.medium
  else RiskLevel.high

/-- State-passing embedding of a call `validateRotation(legs)` on a caller
array holding `legs`: the returned pair is the call's result together with
the caller's array after the call.  The source's first statement spreads the
argument into a fresh array (`[...legs]`) and sorts only that copy, so the
caller's array is handed back unchanged. -/
def validateRotationCall (legs : List FlightLeg) :
    ValidationResult × List FlightLeg :=
  let copy := legs
  let sortedLegs := sortLegs copy
  let conflicts := checkPairs sortedLegs
  ({ isValid := conflicts.length == 0, conflicts := conflicts }, legs)

/-! ## Spec-side descriptions -/

/-- Declarative per-pair conflict description, as the spec words it: an
`ERROR` conflict referencing `next`'s id when the stations disagree; an
`ERROR` overlap conflict when `current`'s arrival minute is strictly greater
than `next`'s departure minute (the MCT check being skipped for that pair);
and, only when there is no overlap, a `WARNING` conflict when the gap is
strictly below 45 minutes. -/
def pairConflictSpec (current next : FlightLeg) : List RotationConflict :=
  (if current.destination ≠ next.origin then
    [{ legId := next.id, reason := mismatchReason current next,
       severity := Severity.ERROR }]
  else []) ++
  (if parseTime current.schedArr > parseTime next.schedDep then
    [{ legId := next.id, reason := overlapReason current next,
       severity := Severity.ERROR }]
  else if parseTime next.schedDep - parseTime current.schedArr < 45 then
    [{ legId := next.id, reason := mctReason (parseTime next.schedDep - parseTime current.schedArr),
       severity := Severity.WARNING }]
  else []) ++
  []

/-! ## Helper lemmas -/

theorem checkPairs_eq_flatMap (xs : List FlightLeg) :
    checkPairs xs = (xs.zip xs.tail).flatMap (fun p => pairConflictSpec p.1 p.2) := by
  induction xs with
  | nil => rfl
  | cons a tl ih =>
      cases tl with
      | nil => rfl
      | cons b rest =>
          simp only [checkPairs, pairConflictSpec, List.tail_cons, List.zip_cons_cons,
            List.flatMap_cons, MCT_MINUTES, List.append_nil, List.append_assoc] at ih ⊢
          rw [ih]

theorem validateRotation_conflicts_def (legs : List FlightLeg) :
    (validateRotation legs).conflicts = checkPairs (sortLegs legs) := rfl

theorem validateRotation_isValid_def (legs : List FlightLeg) :
    (validateRotation legs).isValid = (checkPairs (sortLegs legs)).isEmpty := by
  cases hc : checkPairs (sortLegs legs) <;> simp [validateRotation, hc]

theorem sortLegs_sorted (legs : List FlightLeg) :
    (sortLegs legs).Pairwise (fun a b => parseTime a.schedDep ≤ parseTime b.schedDep) := by
  have h : (sortLegs legs).Pairwise
      (fun a b => decide (parseTime a.schedDep ≤ parseTime b.schedDep) = true) := by
    unfold sortLegs
    exact List.sorted_mergeSort
      (fun a b c hab hbc => by
        simp only [decide_eq_true_eq] at hab hbc ⊢
        omega)
      (fun a b => by
        simp only [Bool.or_eq_true, decide_eq_true_eq]
        exact Nat.le_total _ _)
      legs
  exact h.imp (fun hab => by simpa using hab)

theorem sortLegs_perm (legs : List FlightLeg) : (sortLegs legs).Perm legs :=
  List.mergeSort_perm legs _

/-- A concrete sample leg, used by the witnesses below. -/
def sampleLeg : FlightLeg :=
  { id := "L1", flightNumber := "TK101", origin := "IST", destination := "ESB",
    schedDep := "08:00", schedArr := "10:00", status := LegStatus.ON_TIME }

/-! ## Claims -/

/-- C1: for every list of flight legs, the conflicts of `validateRotation`
are exactly those described pair by pair over the adjacent pairs of the copy
sorted ascending by scheduled-departure minute: a continuity `ERROR` when the
stations disagree, an overlap `ERROR` (with the MCT check skipped) when the
arrival minute strictly exceeds the next departure minute, and otherwise an
MCT `WARNING` when the gap is strictly below 45 minutes; no other conflicts
are produced. -/
theorem validateRotation_pair_conflicts (legs : List FlightLeg) :
    (validateRotation legs).conflicts
      = ((sortLegs legs).zip (sortLegs legs).tail).flatMap
          (fun p => pairConflictSpec p.1 p.2)
    ∧ (sortLegs legs).Pairwise (fun a b => parseTime a.schedDep ≤ parseTime b.schedDep)
    ∧ (sortLegs legs).Perm legs :=
  ⟨by rw [validateRotation_conflicts_def, checkPairs_eq_flatMap],
   sortLegs_sorted legs, sortLegs_perm legs⟩

/-- C2: `validateRotation` returns `isValid = true` exactly when its conflict
list is empty, and any list of zero or one leg validates trivially with an
empty conflict list. -/
theorem validateRotation_isValid_iff_no_conflicts (legs : List FlightLeg) :
    ((validateRotation legs).isValid = true ↔ (validateRotation legs).conflicts = [])
    ∧ (legs.length ≤ 1 →
        (validateRotation legs).isValid = true ∧ (validateRotation legs).conflicts = []) := by
  constructor
  · rw [validateRotation_isValid_def, validateRotation_conflicts_def]
    exact List.isEmpty_iff
  · intro h
    have hlen : (sortLegs legs).length ≤ 1 := by
      simpa [sortLegs] using h
    have hnil : checkPairs (sortLegs legs) = [] := by
      rcases hsl : sortLegs legs with _ | ⟨a, _ | ⟨b, rest⟩⟩
      · rfl
      · rfl
      · rw [hsl] at hlen
        simp at hlen
    rw [validateRotation_isValid_def, validateRotation_conflicts_def, hnil]
    exact ⟨rfl, rfl⟩

/-- Witness for C2 at the one-leg list `[sampleLeg]`. -/
theorem validateRotation_isValid_iff_no_conflicts_witness :
    ((validateRotation [sampleLeg]).isValid = true ↔
        (validateRotation [sampleLeg]).conflicts = [])
    ∧ ([sampleLeg].length ≤ 1 →
        (validateRotation [sampleLeg]).isValid = true
        ∧ (validateRotation [sampleLeg]).conflicts = []) :=
  validateRotation_isValid_iff_no_conflicts [sampleLeg]

/-- C7: a call to `validateRotation` hands the caller's leg collection back
unchanged (the validator sorts only a copy), and its result is the pure
function of the list's value. -/
theorem validateRotationCall_frame (legs : List FlightLeg) :
    (validateRotationCall legs).2 = legs
    ∧ (validateRotationCall legs).1 = validateRotation legs :=
  ⟨rfl, rfl⟩

/-! ## Risk scorer lemmas -/

/-- Time-of-day branch of `calculateDelayRisk`. -/
def todPenalty (minutes : Nat) : ℚ :=
  if minutes > 1000 then 0.2 else if minutes > 720 then 0.1 else 0

/-- Cascading-delay branch of `calculateDelayRisk`. -/
def cascadePenalty (d : ℚ) : ℚ :=
  if d > 60 then 0.4 else if d > 15 then 0.2 else 0

/-- Weather branch of `calculateDelayRisk`. -/
def weatherPenalty : Weather → ℚ
  | Weather.STORM => 0.5
  | Weather.SNOW => 0.4
  | Weather.FOG => 0.3
  | Weather.RAIN => 0.1
  | Weather.CLEAR => 0

/-- Aircraft-type branch of `calculateDelayRisk`. -/
def typeAdjust (t : String) : ℚ :=
  if t = "B737-MAX" ∨ t = "A321neo" then -0.05 else 0

theorem clamp99_congr {a b : ℚ} (h : a = b) :
    min (max a 0) 0.99 = min (max b 0) 0.99 := by rw [h]

theorem clamp1_congr {a b : ℚ} (h : a = b) :
    min (max a 0) 1 = min (max b 0) 1 := by rw [h]

theorem calculateDelayRisk_eq (input : DelayInput) :
    calculateDelayRisk input =
      min (max (0.1 + todPenalty (parseTime input.schedDepTime)
        + cascadePenalty input.prevDelayMinutes
        + weatherPenalty input.weatherCondition
        + typeAdjust input.aircraftType) 0) 0.99 := by
  obtain ⟨t, d, ty, w⟩ := input
  cases w <;>
    simp only [calculateDelayRisk, todPenalty, cascadePenalty, weatherPenalty, typeAdjust] <;>
    split_ifs <;>
    exact clamp99_congr (by ring)

theorem cascadePenalty_mono {d1 d2 : ℚ} (h : d1 ≤ d2) :
    cascadePenalty d1 ≤ cascadePenalty d2 := by
  unfold cascadePenalty
  split_ifs <;> linarith

theorem calculateMaintenanceRisk_nonneg (now : ℚ) (ac : Aircraft) :
    0 ≤ calculateMaintenanceRisk now ac := by
  simp only [calculateMaintenanceRisk]
  exact le_min (le_max_right _ _) (by norm_num)

/-- A concrete sample delay input, used by the witnesses below. -/
def sampleDelay : DelayInput :=
  { schedDepTime := "14:30", prevDelayMinutes := 20, aircraftType := "B737-MAX",
    weatherCondition := Weather.RAIN }

/-- C3: on a well-formed departure time, `calculateDelayRisk` is exactly the
clamped sum of the base `0.10`, the time-of-day penalty, the cascading-delay
penalty, the weather penalty and the new-type adjustment; and for any
`DelayInput` the score lies in `[0, 0.99]` and never reaches `1`. -/
theorem calculateDelayRisk_formula (input : DelayInput) :
    (wellFormedTime input.schedDepTime = true →
      calculateDelayRisk input =
        min (max (0.1
          + (if parseTime input.schedDepTime > 1000 then 0.2
             else if parseTime input.schedDepTime > 720 then 0.1 else 0)
          + (if input.prevDelayMinutes > 60 then 0.4
             else if input.prevDelayMinutes > 15 then 0.2 else 0)
          + (match input.weatherCondition with
             | Weather.STORM => (0.5 : ℚ)
             | Weather.SNOW => 0.4
             | Weather.FOG => 0.3
             | Weather.RAIN => 0.1
             | Weather.CLEAR => 0)
          + (if input.aircraftType = "B737-MAX" ∨ input.aircraftType = "A321neo"
             then -0.05 else 0)) 0) 0.99)
    ∧ 0 ≤ calculateDelayRisk input
    ∧ calculateDelayRisk input ≤ 0.99
    ∧ calculateDelayRisk input < 1 := by
  refine ⟨fun _ => ?_, ?_, ?_, ?_⟩
  · rw [calculateDelayRisk_eq]
    obtain ⟨t, d, ty, w⟩ := input
    cases w <;>
      simp only [todPenalty, cascadePenalty, weatherPenalty, typeAdjust]
  · rw [calculateDelayRisk_eq]
    exact le_min (le_max_right _ _) (by norm_num)
  · rw [calculateDelayRisk_eq]
    exact min_le_right _ _
  · rw [calculateDelayRisk_eq]
    exact lt_of_le_of_lt (min_le_right _ _) (by norm_num)

/-- Witness for C3 at `sampleDelay`. -/
theorem calculateDelayRisk_formula_witness :
    (wellFormedTime sampleDelay.schedDepTime = true →
      calculateDelayRisk sampleDelay =
        min (max (0.1
          + (if parseTime sampleDelay.schedDepTime > 1000 then 0.2
             else if parseTime sampleDelay.schedDepTime > 720 then 0.1 else 0)
          + (if sampleDelay.prevDelayMinutes > 60 then 0.4
             else if sampleDelay.prevDelayMinutes > 15 then 0.2 else 0)
          + (match sampleDelay.weatherCondition with
             | Weather.STORM => (0.5 : ℚ)
             | Weather.SNOW => 0.4
             | Weather.FOG => 0.3
             | Weather.RAIN => 0.1
             | Weather.CLEAR => 0)
          + (if sampleDelay.aircraftType = "B737-MAX" ∨ sampleDelay.aircraftType = "A321neo"
             then -0.05 else 0)) 0) 0.99)
    ∧ 0 ≤ calculateDelayRisk sampleDelay
    ∧ calculateDelayRisk sampleDelay ≤ 0.99
    ∧ calculateDelayRisk sampleDelay < 1 :=
  calculateDelayRisk_formula sampleDelay

/-- C8: holding every other field fixed, `calculateDelayRisk` is monotonically
non-decreasing in the inbound-delay-minutes field. -/
theorem calculateDelayRisk_mono_prevDelay (input : DelayInput) (d1 d2 : ℚ)
    (h : d1 ≤ d2) :
    calculateDelayRisk { input with prevDelayMinutes := d1 }
      ≤ calculateDelayRisk { input with prevDelayMinutes := d2 } := by
  rw [calculateDelayRisk_eq, calculateDelayRisk_eq]
  have hc : cascadePenalty d1 ≤ cascadePenalty d2 := cascadePenalty_mono h
  exact min_le_min (max_le_max (by simp only; linarith) le_rfl) le_rfl

/-- Witness for C8: increasing the inbound delay from 10 to 70 minutes does
not decrease the delay-risk score. -/
theorem calculateDelayRisk_mono_prevDelay_witness :
    calculateDelayRisk { sampleDelay with prevDelayMinutes := 10 }
      ≤ calculateDelayRisk { sampleDelay with prevDelayMinutes := 70 } :=
  calculateDelayRisk_mono_prevDelay sampleDelay 10 70 (by norm_num)

/-- C4: `calculateMaintenanceRisk` is exactly the clamp to `[0, 1]` of
`0.05 + ageYears·0.015 + (cycles/10000)·0.10 + snagCount·0.08`, plus `0.15`
when more than 30 days separate the last maintenance from the evaluation
date; hence the result always lies in `[0, 1]`. -/
theorem calculateMaintenanceRisk_formula (now : ℚ) (ac : Aircraft) :
    calculateMaintenanceRisk now ac =
      min (max (0.05 + ac.ageYears * 0.015 + (ac.cycles / 10000) * 0.1
        + ac.snagCount * 0.08
        + (if (now - ac.lastMaintenance) / (1000 * 3600 * 24) > 30 then 0.15 else 0)) 0) 1
    ∧ 0 ≤ calculateMaintenanceRisk now ac
    ∧ calculateMaintenanceRisk now ac ≤ 1 := by
  refine ⟨?_, calculateMaintenanceRisk_nonneg now ac, ?_⟩
  · simp only [calculateMaintenanceRisk]
    split_ifs <;> exact clamp1_congr (by ring)
  · simp only [calculateMaintenanceRisk]
    exact min_le_right _ _

/-! ## Swap optimizer claims -/

/-- C5: `optimizeTailSwap` rescores by the decision table — when one aircraft
has both strictly higher base maintenance risk and strictly more legs, its
score is multiplied by `0.8` and the other's by `1.1`, otherwise both are
unchanged — and `improvement` is the summed base risk minus the summed new
risk, times 100. -/
theorem optimizeTailSwap_rescoring (now : ℚ) (ac1 ac2 : Aircraft)
    (legs1 legs2 : List FlightLeg) :
    ((optimizeTailSwap now ac1 legs1 ac2 legs2).riskScoreA,
      (optimizeTailSwap now ac1 legs1 ac2 legs2).riskScoreB)
      = (if calculateMaintenanceRisk now ac1 > calculateMaintenanceRisk now ac2
            ∧ legs1.length > legs2.length then
          (calculateMaintenanceRisk now ac1 * 0.8, calculateMaintenanceRisk now ac2 * 1.1)
        else if calculateMaintenanceRisk now ac2 > calculateMaintenanceRisk now ac1
            ∧ legs2.length > legs1.length then
          (calculateMaintenanceRisk now ac1 * 1.1, calculateMaintenanceRisk now ac2 * 0.8)
        else (calculateMaintenanceRisk now ac1, calculateMaintenanceRisk now ac2))
    ∧ (optimizeTailSwap now ac1 legs1 ac2 legs2).improvement
      = (calculateMaintenanceRisk now ac1 + calculateMaintenanceRisk now ac2
          - ((optimizeTailSwap now ac1 legs1 ac2 legs2).riskScoreA
            + (optimizeTailSwap now ac1 legs1 ac2 legs2).riskScoreB)) * 100 := by
  constructor <;> simp only [optimizeTailSwap]

/-- C6: the swap is feasible exactly when both swapped leg sets validate, and
the recommendation string follows the priority order not-feasible, then
`improvement > 5`, then `improvement > 0`, then keep. -/
theorem optimizeTailSwap_recommendation (now : ℚ) (ac1 ac2 : Aircraft)
    (legs1 legs2 : List FlightLeg) :
    ((optimizeTailSwap now ac1 legs1 ac2 legs2).feasible = true ↔
      (validateRotation legs2).isValid = true ∧ (validateRotation legs1).isValid = true)
    ∧ (optimizeTailSwap now ac1 legs1 ac2 legs2).recommendation =
        (if ¬ (optimizeTailSwap now ac1 legs1 ac2 legs2).feasible = true then
          "Swap not feasible due to rotation conflicts."
        else if (optimizeTailSwap now ac1 legs1 ac2 legs2).improvement > 5 then
          "STRONG RECOMMENDATION: Swap tails to mitigate maintenance risk on tight rotation."
        else if (optimizeTailSwap now ac1 legs1 ac2 legs2).improvement > 0 then
          "Marginal benefit. Swap at discretion."
        else "Keep current assignment.") := by
  constructor
  · simp [optimizeTailSwap]
  · simp only [optimizeTailSwap, Bool.not_eq_true]

/-- C10: `improvement` is never negative; it is strictly positive exactly
when one aircraft has both strictly higher base maintenance risk and strictly
more legs than the other, and zero exactly otherwise. -/
theorem optimizeTailSwap_improvement_nonneg (now : ℚ) (ac1 ac2 : Aircraft)
    (legs1 legs2 : List FlightLeg) :
    0 ≤ (optimizeTailSwap now ac1 legs1 ac2 legs2).improvement
    ∧ ((optimizeTailSwap now ac1 legs1 ac2 legs2).improvement > 0 ↔
        (calculateMaintenanceRisk now ac1 > calculateMaintenanceRisk now ac2
          ∧ legs1.length > legs2.length)
        ∨ (calculateMaintenanceRisk now ac2 > calculateMaintenanceRisk now ac1
          ∧ legs2.length > legs1.length))
    ∧ ((optimizeTailSwap now ac1 legs1 ac2 legs2).improvement = 0 ↔
        ¬ ((calculateMaintenanceRisk now ac1 > calculateMaintenanceRisk now ac2
          ∧ legs1.length > legs2.length)
        ∨ (calculateMaintenanceRisk now ac2 > calculateMaintenanceRisk now ac1
          ∧ legs2.length > legs1.length))) := by
  have h1 := calculateMaintenanceRisk_nonneg now ac1
  have h2 := calculateMaintenanceRisk_nonneg now ac2
  simp only [optimizeTailSwap]
  split_ifs with hc1 hc2 <;> dsimp only
  · obtain ⟨hb, hl⟩ := hc1
    refine ⟨by linarith, ⟨fun _ => Or.inl ⟨hb, hl⟩, fun _ => by linarith⟩,
      ⟨fun h0 => absurd h0 (by linarith), fun hno => absurd (Or.inl ⟨hb, hl⟩) hno⟩⟩
  · obtain ⟨hb, hl⟩ := hc2
    refine ⟨by linarith, ⟨fun _ => Or.inr ⟨hb, hl⟩, fun _ => by linarith⟩,
      ⟨fun h0 => absurd h0 (by linarith), fun hno => absurd (Or.inr ⟨hb, hl⟩) hno⟩⟩
  · refine ⟨by linarith, ⟨fun hgt => absurd hgt (by linarith), ?_⟩,
      ⟨fun _ => ?_, fun _ => by ring⟩⟩
    · rintro (hcd | hcd)
      · exact absurd hcd hc1
      · exact absurd hcd hc2
    · rintro (hcd | hcd)
      · exact absurd hcd hc1
      · exact absurd hcd hc2

/-- C9: the `RiskBadge` classifier and `DelayRiskPage.calculateRiskLevel`
assign the same level to every score, and both match the canonical rule
(LOW below 0.25, MEDIUM on `[0.25, 0.6]`, HIGH above 0.6). -/
theorem riskLevel_classifiers_agree (s : ℚ) :
    riskBadgeLevel s = calculateRiskLevel s
    ∧ calculateRiskLevel s = canonicalRiskLevel s := by
  rcases lt_or_le s 0.25 with h1 | h1
  · have hn1 : ¬ s > 0.6 := by linarith
    have hn2 : ¬ s ≥ 0.25 := by linarith
    simp [riskBadgeLevel, calculateRiskLevel, canonicalRiskLevel, h1, hn1, hn2]
  · rcases le_or_lt s 0.6 with h2 | h2
    · have hn1 : ¬ s < 0.25 := by linarith
      have hn2 : ¬ s > 0.6 := by linarith
      have hge : s ≥ 0.25 := h1
      simp [riskBadgeLevel, calculateRiskLevel, canonicalRiskLevel, hn1, hn2, hge, h1, h2]
    · have hn1 : ¬ s < 0.25 := by linarith
      have hn2 : ¬ s ≤ 0.6 := by linarith
      have hgt : s > 0.6 := h2
      simp [riskBadgeLevel, calculateRiskLevel, canonicalRiskLevel, hn1, hn2, hgt]

end FlightTailOptimizer

